import Mathlib

/-!
# GCP provider of the cloud-api-adaptor: a shallow embedding

Embedding of `pkg/adaptor/cloud/gcp/provider.go`.

Conventions of the embedding.

* A Go `string` is a Lean `String`; the one exception is the boot payload
  returned by `Generate`, which the code only ever converts with
  `[]byte(userData)` and which is therefore kept as its byte sequence.
* A Go `error` is represented by its message (`Error()`); `nil` is the absence
  of a message.
* Optional protobuf fields (pointers set with `proto.String`, `proto.Int64`,
  `proto.Bool`) are `Option` values; the generated `GetX` accessors return the
  zero value when the field is unset.
* The backend client is a record of state-passing functions over an arbitrary
  backend state; every provider method also returns the list of backend calls
  it issued, in order.
* `context.Context` and logging are not modelled: the context only influences
  what the backend answers, which is left arbitrary.
-/

namespace CloudApiAdaptor

/-- A Go `error`, represented by its message. -/
abbrev GoError := String

/-- A byte sequence (`[]byte`); every element of a well-formed value is below 256. -/
abbrev Bytes := List Nat

/-! ## `encoding/base64`, `StdEncoding` (Go standard library, RFC 4648 section 4) -/

namespace base64

/-- The alphabet of the standard encoding. -/
def encodeStd : List Char :=
  "ABCDEFGHIJKLMNOPQRSTUVWXYZabcdefghijklmnopqrstuvwxyz0123456789+/".data

/-- The padding character of the standard encoding. -/
def StdPadding : Char := '='

/-- Table lookup `enc.encode[i]` for a 6-bit index. -/
def encodeChar (i : Nat) : Char := encodeStd.getD i 'A'

/-- Lookup in `enc.decodeMap`: the 6-bit value of an alphabet character, or
nothing for any other character. -/
def decodeChar (c : Char) : Option Nat :=
  if encodeStd.indexOf c < 64 then some (encodeStd.indexOf c) else none

/-- The function `Encoding.Encode` of `StdEncoding`: full 3-byte groups become 4
characters; a remainder of 1 or 2 bytes becomes 2 or 3 characters followed by
padding. The shifts and ors of the original act on disjoint bit ranges and are
written with multiplication, division and remainder. -/
def encode : Bytes → List Char
  | [] => []
  | [a] =>
    let val := a * 65536
    [encodeChar (val / 262144 % 64), encodeChar (val / 4096 % 64), StdPadding, StdPadding]
  | [a, b] =>
    let val := a * 65536 + b * 256
    [encodeChar (val / 262144 % 64), encodeChar (val / 4096 % 64),
      encodeChar (val / 64 % 64), StdPadding]
  | a :: b :: c :: rest =>
    let val := a * 65536 + b * 256 + c
    encodeChar (val / 262144 % 64) :: encodeChar (val / 4096 % 64) ::
      encodeChar (val / 64 % 64) :: encodeChar (val % 64) :: encode rest

/-- The function `StdEncoding.EncodeToString`. -/
def EncodeToString (src : Bytes) : String := String.mk (encode src)

/-- Decoding of the quanta of an input without line breaks: every group of four
alphabet characters gives three bytes; padding is accepted only in the last
group, which then gives one or two bytes. -/
def decodeQuanta : List Char → Option Bytes
  | [] => some []
  | c0 :: c1 :: c2 :: c3 :: rest =>
    match decodeChar c0, decodeChar c1 with
    | some d0, some d1 =>
      if c2 = StdPadding then
        if c3 = StdPadding ∧ rest = [] then
          some [(d0 * 262144 + d1 * 4096) / 65536 % 256]
        else none
      else
        match decodeChar c2 with
        | some d2 =>
          if c3 = StdPadding then
            if rest = [] then
              let val := d0 * 262144 + d1 * 4096 + d2 * 64
              some [val / 65536 % 256, val / 256 % 256]
            else none
          else
            match decodeChar c3, decodeQuanta rest with
            | some d3, some tail =>
              let val := d0 * 262144 + d1 * 4096 + d2 * 64 + d3
              some (val / 65536 % 256 :: val / 256 % 256 :: val % 256 :: tail)
            | _, _ => none
        | none => none
    | _, _ => none
  | _ => none

/-- The function `StdEncoding.DecodeString`: carriage returns and line feeds are
skipped, the rest is decoded group by group. -/
def DecodeString (s : String) : Option Bytes :=
  decodeQuanta (s.data.filter (fun c => c != '\r' && c != '\n'))

end base64

/-! ## `net` (Go standard library) -/

/-- An address of type `net.IP`, a byte slice. -/
abbrev IP := List Nat

/-! ## `computepb`: the protobuf messages of the compute API (fields used by the provider) -/

namespace computepb

/-- Message `AttachedDiskInitializeParams`. -/
structure AttachedDiskInitializeParams where
  DiskSizeGb : Option Int
  SourceImage : Option String
  DiskType : Option String
  deriving DecidableEq, Repr

/-- Message `AttachedDisk`; the field `Type_` is the protobuf field `Type`. -/
structure AttachedDisk where
  InitializeParams : Option AttachedDiskInitializeParams
  AutoDelete : Option Bool
  Boot : Option Bool
  Type_ : Option String
  deriving DecidableEq, Repr

/-- The result of `AttachedDisk_PERSISTENT.String()`: the name of the enum value. -/
def AttachedDisk_PERSISTENT : String := "PERSISTENT"

/-- Message `Items`, a metadata key/value pair. -/
structure Items where
  Key : Option String
  Value : Option String
  deriving DecidableEq, Repr

/-- Message `Metadata`. -/
structure Metadata where
  Items : List Items
  deriving DecidableEq, Repr

/-- Message `AccessConfig`. -/
structure AccessConfig where
  Name : Option String
  NetworkTier : Option String
  NatIP : Option String
  deriving DecidableEq, Repr

/-- Accessor `GetNatIP`: the empty string when the field is unset. -/
def AccessConfig.GetNatIP (x : AccessConfig) : String := x.NatIP.getD ""

/-- Message `NetworkInterface`. -/
structure NetworkInterface where
  AccessConfigs : List AccessConfig
  StackType : Option String
  Name : Option String
  deriving DecidableEq, Repr

/-- Accessor `GetAccessConfigs`. -/
def NetworkInterface.GetAccessConfigs (x : NetworkInterface) : List AccessConfig :=
  x.AccessConfigs

/-- Message `Instance`: the resource of an insert request and the answer of a get request. -/
structure Instance where
  Id : Option Nat
  Name : Option String
  Disks : List AttachedDisk
  Metadata : Option Metadata
  MachineType : Option String
  NetworkInterfaces : List NetworkInterface
  deriving DecidableEq, Repr

/-- Accessor `GetName`: the empty string when the field is unset. -/
def Instance.GetName (x : Instance) : String := x.Name.getD ""

/-- Accessor `GetId`: zero when the field is unset. -/
def Instance.GetId (x : Instance) : Nat := x.Id.getD 0

/-- Accessor `GetNetworkInterfaces`. -/
def Instance.GetNetworkInterfaces (x : Instance) : List NetworkInterface :=
  x.NetworkInterfaces

/-- Message `InsertInstanceRequest`. -/
structure InsertInstanceRequest where
  Project : String
  Zone : String
  InstanceResource : Option Instance
  deriving DecidableEq, Repr

/-- Message `GetInstanceRequest`. -/
structure GetInstanceRequest where
  Project : String
  Zone : String
  Instance : String
  deriving DecidableEq, Repr

/-- Message `DeleteInstanceRequest`. -/
structure DeleteInstanceRequest where
  Project : String
  Zone : String
  Instance : String
  deriving DecidableEq, Repr

end computepb

/-! ## `compute`: the instances client and its long-running operations -/

namespace compute

/-- The handle `*compute.Operation` of a long-running operation. -/
structure Operation where
  Name : String
  deriving DecidableEq, Repr

/-- The backend client `*compute.InstancesClient` over a backend state `σ`. Each
function takes the state before the call and gives the answer and the state
after it. `Wait` is the method `op.Wait(ctx)` of the operation handle; its
answer is the error, if any. -/
structure InstancesClient (σ : Type) where
  Insert : computepb.InsertInstanceRequest → σ → Except GoError Operation × σ
  Wait : Operation → σ → Option GoError × σ
  Get : computepb.GetInstanceRequest → σ → Except GoError computepb.Instance × σ
  Delete : computepb.DeleteInstanceRequest → σ → Except GoError Operation × σ

/-- A backend operation issued by the provider. -/
inductive Call where
  | Insert (req : computepb.InsertInstanceRequest)
  | Wait (op : Operation)
  | Get (req : computepb.GetInstanceRequest)
  | Delete (req : computepb.DeleteInstanceRequest)
  deriving DecidableEq, Repr

end compute

/-- The library functions whose text is outside the repository: `net.ParseIP`
(nothing stands for the `nil` result), the `%q` verb of `fmt` on a string, and
the `%v` rendering of the three request messages. -/
structure Stdlib where
  ParseIP : String → Option IP
  quote : String → String
  fmtInsertReq : computepb.InsertInstanceRequest → String
  fmtGetReq : computepb.GetInstanceRequest → String
  fmtDeleteReq : computepb.DeleteInstanceRequest → String

/-! ## Packages of the repository used by the provider -/

namespace cloud

/-- The result value `cloud.Instance`. A `nil` slice of addresses is the empty list. -/
structure Instance where
  ID : String
  Name : String
  IPs : List IP
  deriving DecidableEq, Repr

/-- The type `cloud.InstanceTypeSpec`; its declaration is outside the source
files at hand and the provider reads none of its fields. -/
structure InstanceTypeSpec where
  InstanceType : String
  VCPUs : Int
  Memory : Int
  deriving DecidableEq, Repr

end cloud

namespace cloudinit

/-- The interface `cloudinit.CloudConfigGenerator`: `Generate` gives the boot
payload (as bytes) or an error. -/
structure CloudConfigGenerator where
  Generate : Unit → Except GoError Bytes

end cloudinit

namespace util

/-- Modelled from the spec: `util.GenerateInstanceName` of package `pkg/util`,
whose text is not among the source files. The spec describes the name as a
combination of pod name and sandbox ID whose natural concatenation is
deterministically truncated to the backend's maximum length. -/
def GenerateInstanceName (podName sandboxID : String) (podvmNameMax : Nat) : String :=
  String.mk ((podName.data ++ sandboxID.data).take podvmNameMax)

end util

/-! ## Package `gcp` -/

namespace gcp

set_option linter.unusedVariables false

/-- The type `Config` of package `gcp` (fields read by the provider). -/
structure Config where
  GcpCredentials : String
  ProjectId : String
  Zone : String
  ImageName : String
  MachineType : String
  Network : String
  deriving DecidableEq, Repr

/-- The constant `maxInstanceNameLen`. -/
def maxInstanceNameLen : Nat := 63

/-- The type `gcpProvider`. `NewProvider` never returns a provider without a client,
so the client is always present. -/
structure gcpProvider (σ : Type) where
  serviceConfig : Config
  instancesClient : compute.InstancesClient σ

/-- What a provider method leaves behind: its return value, the backend state
after it, and the backend operations it issued, in order. -/
structure Run (σ : Type) (α : Type) where
  result : α
  state : σ
  calls : List compute.Call

/-- The inner loop of `CreateInstance` over the access configurations of one
interface; `ips` is the slice accumulated so far. An address that does not
parse ends the whole call with an error. -/
def parseAccessConfigs (lib : Stdlib) :
    List computepb.AccessConfig → List IP → Except GoError (List IP)
  | [], ips => .ok ips
  | access :: rest, ips =>
    let ipStr := access.GetNatIP
    match lib.ParseIP ipStr with
    | none => .error ("failed to parse pod node IP " ++ lib.quote ipStr)
    | some ip => parseAccessConfigs lib rest (ips ++ [ip])

/-- The outer loop of `CreateInstance` over the network interfaces. -/
def parseNetworkInterfaces (lib : Stdlib) :
    List computepb.NetworkInterface → List IP → Except GoError (List IP)
  | [], ips => .ok ips
  | nic :: rest, ips =>
    match parseAccessConfigs lib nic.GetAccessConfigs ips with
    | .error err => .error err
    | .ok ips1 => parseNetworkInterfaces lib rest ips1

/-- The value of the local variable `insertReq` of `CreateInstance`, as a
function of the provider (for its configuration), of the local `instanceName`
and of the local `userDataEnc`. Fields the source leaves out are unset. -/
def gcpProvider.insertReq {σ : Type} (p : gcpProvider σ) (instanceName userDataEnc : String) :
    computepb.InsertInstanceRequest :=
  { Project := p.serviceConfig.ProjectId
    Zone := p.serviceConfig.Zone
    InstanceResource := some
      { Id := none
        Name := some instanceName
        Disks :=
          [{ InitializeParams := some
               { DiskSizeGb := some 20
                 SourceImage := some ("projects/" ++ p.serviceConfig.ProjectId ++
                   "/global/images/" ++ p.serviceConfig.ImageName)
                 DiskType := some ("zones/" ++ p.serviceConfig.Zone ++
                   "/diskTypes/pd-standard") }
             AutoDelete := some true
             Boot := some true
             Type_ := some computepb.AttachedDisk_PERSISTENT }]
        Metadata := some
          { Items :=
              [{ Key := some "user-data", Value := some userDataEnc },
               { Key := some "user-data-encoding", Value := some "base64" }] }
        MachineType := some ("zones/" ++ p.serviceConfig.Zone ++ "/machineTypes/" ++
          p.serviceConfig.MachineType)
        NetworkInterfaces :=
          [{ AccessConfigs :=
               [{ Name := some "External NAT", NetworkTier := some "PREMIUM",
                  NatIP := none }]
             StackType := some "IPV4_Only"
             Name := some p.serviceConfig.Network }] } }

/-- The value of the local variable `getReq` of `CreateInstance`. -/
def gcpProvider.getReq {σ : Type} (p : gcpProvider σ) (instanceName : String) :
    computepb.GetInstanceRequest :=
  { Project := p.serviceConfig.ProjectId
    Zone := p.serviceConfig.Zone
    Instance := instanceName }

/-- The method `gcpProvider.CreateInstance`; `inst` is the variable `instance` of the
source, the answer of the get request. The slice `ips` collected by the loops
is not used in the value returned: the source returns `IPs: nil`. -/
def gcpProvider.CreateInstance {σ : Type} (lib : Stdlib) (p : gcpProvider σ)
    (podName sandboxID : String) (cloudConfig : cloudinit.CloudConfigGenerator)
    (spec : cloud.InstanceTypeSpec) (st : σ) : Run σ (Except GoError cloud.Instance) :=
  let instanceName := util.GenerateInstanceName podName sandboxID maxInstanceNameLen
  match cloudConfig.Generate () with
  | .error err => ⟨.error err, st, []⟩
  | .ok userData =>
    let userDataEnc := base64.EncodeToString userData
    let insertReq := p.insertReq instanceName userDataEnc
    match p.instancesClient.Insert insertReq st with
    | (.error err, st1) =>
      ⟨.error ("Instances.Insert error: " ++ err ++ ". req: " ++ lib.fmtInsertReq insertReq),
        st1, [.Insert insertReq]⟩
    | (.ok op, st1) =>
      match p.instancesClient.Wait op st1 with
      | (some err, st2) =>
        ⟨.error ("waiting for Instances.Insert error: " ++ err ++ ". req: " ++
          lib.fmtInsertReq insertReq), st2, [.Insert insertReq, .Wait op]⟩
      | (none, st2) =>
        let getReq := p.getReq instanceName
        match p.instancesClient.Get getReq st2 with
        | (.error err, st3) =>
          ⟨.error ("unable to get instance: " ++ err ++ ", req: " ++ lib.fmtGetReq getReq),
            st3, [.Insert insertReq, .Wait op, .Get getReq]⟩
        | (.ok inst, st3) =>
          match parseNetworkInterfaces lib inst.GetNetworkInterfaces [] with
          | .error err => ⟨.error err, st3, [.Insert insertReq, .Wait op, .Get getReq]⟩
          | .ok ips =>
            ⟨.ok { ID := inst.GetName, Name := inst.GetName, IPs := [] },
              st3, [.Insert insertReq, .Wait op, .Get getReq]⟩

/-- The method `gcpProvider.DeleteInstance`; the result is the error, if any. -/
def gcpProvider.DeleteInstance {σ : Type} (lib : Stdlib) (p : gcpProvider σ)
    (instanceID : String) (st : σ) : Run σ (Option GoError) :=
  let req : computepb.DeleteInstanceRequest :=
    { Project := p.serviceConfig.ProjectId
      Zone := p.serviceConfig.Zone
      Instance := instanceID }
  match p.instancesClient.Delete req st with
  | (.error err, st1) =>
    ⟨some ("Instances.Delete error: " ++ err ++ ", req: " ++ lib.fmtDeleteReq req),
      st1, [.Delete req]⟩
  | (.ok op, st1) =>
    match p.instancesClient.Wait op st1 with
    | (some err, st2) =>
      ⟨some ("waiting for Instances.Delete error: " ++ err ++ ". req: " ++
        lib.fmtDeleteReq req), st2, [.Delete req, .Wait op]⟩
    | (none, st2) => ⟨none, st2, [.Delete req, .Wait op]⟩

/-- The method `gcpProvider.ConfigVerifier`; the result is the error, if any. -/
def gcpProvider.ConfigVerifier {σ : Type} (p : gcpProvider σ) (st : σ) :
    Run σ (Option GoError) :=
  let ImageName := p.serviceConfig.ImageName
  if ImageName.length = 0 then ⟨some "ImageName is empty", st, []⟩ else ⟨none, st, []⟩

/-- The method `gcpProvider.Teardown`. -/
def gcpProvider.Teardown {σ : Type} (p : gcpProvider σ) (st : σ) : Run σ (Option GoError) :=
  ⟨none, st, []⟩

/-- The address strings reported by a fetched instance, in encounter order:
network interfaces in order and, within each, its access configurations in
order. This follows the wording of the specification, not the loops. -/
def reportedNatIPs (inst : computepb.Instance) : List String :=
  inst.GetNetworkInterfaces.flatMap fun nic => nic.GetAccessConfigs.map fun access =>
    access.GetNatIP

/-! ## Concrete instances

A scripted backend and a stand-in for the library functions, used to evaluate
the provider on concrete inputs. -/

namespace sample

/-- Answers of a scripted backend: the same answer to every call of a kind. -/
structure Script where
  insert : Except GoError compute.Operation
  wait : Option GoError
  get : Except GoError computepb.Instance
  delete : Except GoError compute.Operation

/-- A backend that answers by script and counts the calls it received. -/
def client (s : Script) : compute.InstancesClient Nat :=
  { Insert := fun _ n => (s.insert, n + 1)
    Wait := fun _ n => (s.wait, n + 1)
    Get := fun _ n => (s.get, n + 1)
    Delete := fun _ n => (s.delete, n + 1) }

/-- A stand-in for the library: two addresses parse, nothing else does. -/
def lib : Stdlib :=
  { ParseIP := fun s =>
      if s = "203.0.113.7" then some [203, 0, 113, 7]
      else if s = "10.0.0.2" then some [10, 0, 0, 2] else none
    quote := fun s => "\"" ++ s ++ "\""
    fmtInsertReq := fun r => "project:" ++ r.Project ++ " zone:" ++ r.Zone
    fmtGetReq := fun r => "project:" ++ r.Project ++ " zone:" ++ r.Zone ++
      " instance:" ++ r.Instance
    fmtDeleteReq := fun r => "project:" ++ r.Project ++ " zone:" ++ r.Zone ++
      " instance:" ++ r.Instance }

/-- A configuration. -/
def config : Config :=
  { GcpCredentials := "", ProjectId := "proj", Zone := "us-central1-a",
    ImageName := "podvm-image", MachineType := "e2-medium", Network := "default" }

/-- The same configuration without an image name. -/
def configNoImage : Config :=
  { GcpCredentials := "", ProjectId := "proj", Zone := "us-central1-a",
    ImageName := "", MachineType := "e2-medium", Network := "default" }

/-- A provider over a scripted backend. -/
def provider (s : Script) : gcpProvider Nat :=
  { serviceConfig := config, instancesClient := client s }

/-- A fetched instance with the given name, numeric id 42, and one interface per
inner list, whose access configurations report the given addresses. -/
def fetched (name : String) (addrs : List (List (Option String))) : computepb.Instance :=
  { Id := some 42, Name := some name, Disks := [], Metadata := none, MachineType := none
    NetworkInterfaces := addrs.map fun l =>
      { AccessConfigs := l.map fun a => { Name := none, NetworkTier := none, NatIP := a }
        StackType := none, Name := none } }

/-- A script in which every call succeeds and the get request answers `inst`. -/
def okScript (inst : computepb.Instance) : Script :=
  { insert := .ok ⟨"op-insert"⟩, wait := none, get := .ok inst, delete := .ok ⟨"op-delete"⟩ }

/-- A generator that gives the payload `Man`. -/
def generator : cloudinit.CloudConfigGenerator := { Generate := fun _ => .ok [77, 97, 110] }

/-- An instance-type spec. -/
def spec : cloud.InstanceTypeSpec := { InstanceType := "small", VCPUs := 2, Memory := 4096 }

end sample

end gcp

end CloudApiAdaptor

/-! # Theorems -/

namespace CloudApiAdaptor

/-! ## The base64 round trip -/

namespace base64

theorem encodeChar_mem (i : Nat) (h : i < 64) : encodeChar i ∈ encodeStd := by
  have hl : encodeStd.length = 64 := by decide
  unfold encodeChar
  rw [List.getD_eq_getElem _ _ (by omega)]
  exact List.getElem_mem _

theorem decodeChar_encodeChar (i : Nat) (h : i < 64) :
    decodeChar (encodeChar i) = some i := by
  have hl : encodeStd.length = 64 := by decide
  have hn : encodeStd.Nodup := by decide
  have hi : encodeStd.indexOf (encodeChar i) = i := by
    unfold encodeChar
    rw [List.getD_eq_getElem _ _ (by omega)]
    exact List.indexOf_getElem hn i (by omega)
  simp [decodeChar, hi, h]

theorem encodeChar_ne_pad (i : Nat) (h : i < 64) : encodeChar i ≠ StdPadding := by
  intro he
  have hm := encodeChar_mem i h
  rw [he] at hm
  exact absurd hm (by decide)

theorem encodeChar_not_break (i : Nat) (h : i < 64) :
    (encodeChar i != '\r' && encodeChar i != '\n') = true := by
  have hm := encodeChar_mem i h
  have hr : encodeChar i ≠ '\r' := by
    intro he; rw [he] at hm; exact absurd hm (by decide)
  have hn : encodeChar i ≠ '\n' := by
    intro he; rw [he] at hm; exact absurd hm (by decide)
  simp [hr, hn]

theorem decodeQuanta_encode : ∀ (src : Bytes), (∀ b ∈ src, b < 256) →
    decodeQuanta (encode src) = some src
  | [], _ => by simp [encode, decodeQuanta]
  | [a], h => by
    have ha : a < 256 := h a (by simp)
    have h0 : a * 65536 / 262144 % 64 < 64 := Nat.mod_lt _ (by decide)
    have h1 : a * 65536 / 4096 % 64 < 64 := Nat.mod_lt _ (by decide)
    simp only [encode, decodeQuanta, decodeChar_encodeChar _ h0, decodeChar_encodeChar _ h1]
    simp only [if_true, and_self, Option.some.injEq, List.cons.injEq, and_true]
    omega
  | [a, b], h => by
    have ha : a < 256 := h a (by simp)
    have hb : b < 256 := h b (by simp)
    have h0 : (a * 65536 + b * 256) / 262144 % 64 < 64 := Nat.mod_lt _ (by decide)
    have h1 : (a * 65536 + b * 256) / 4096 % 64 < 64 := Nat.mod_lt _ (by decide)
    have h2 : (a * 65536 + b * 256) / 64 % 64 < 64 := Nat.mod_lt _ (by decide)
    simp only [encode, decodeQuanta, decodeChar_encodeChar _ h0, decodeChar_encodeChar _ h1,
      decodeChar_encodeChar _ h2, if_neg (encodeChar_ne_pad _ h2)]
    simp only [if_true, Option.some.injEq, List.cons.injEq, and_true]
    constructor <;> omega
  | a :: b :: c :: rest, h => by
    have ha : a < 256 := h a (by simp)
    have hb : b < 256 := h b (by simp)
    have hc : c < 256 := h c (by simp)
    have hrest : ∀ x ∈ rest, x < 256 := fun x hx => h x (by simp [hx])
    have h0 : (a * 65536 + b * 256 + c) / 262144 % 64 < 64 := Nat.mod_lt _ (by decide)
    have h1 : (a * 65536 + b * 256 + c) / 4096 % 64 < 64 := Nat.mod_lt _ (by decide)
    have h2 : (a * 65536 + b * 256 + c) / 64 % 64 < 64 := Nat.mod_lt _ (by decide)
    have h3 : (a * 65536 + b * 256 + c) % 64 < 64 := Nat.mod_lt _ (by decide)
    simp only [encode, decodeQuanta, decodeChar_encodeChar _ h0, decodeChar_encodeChar _ h1,
      decodeChar_encodeChar _ h2, decodeChar_encodeChar _ h3,
      if_neg (encodeChar_ne_pad _ h2), if_neg (encodeChar_ne_pad _ h3),
      decodeQuanta_encode rest hrest]
    simp only [Option.some.injEq, List.cons.injEq, and_true]
    refine ⟨?_, ?_, ?_⟩ <;> omega

theorem filter_encode : ∀ (src : Bytes),
    (encode src).filter (fun c => c != '\r' && c != '\n') = encode src
  | [] => by simp [encode]
  | [a] => by
    have h0 : a * 65536 / 262144 % 64 < 64 := Nat.mod_lt _ (by decide)
    have h1 : a * 65536 / 4096 % 64 < 64 := Nat.mod_lt _ (by decide)
    have hp : (StdPadding != '\r' && StdPadding != '\n') = true := by decide
    simp only [encode, List.filter, encodeChar_not_break _ h0, encodeChar_not_break _ h1, hp]
  | [a, b] => by
    have h0 : (a * 65536 + b * 256) / 262144 % 64 < 64 := Nat.mod_lt _ (by decide)
    have h1 : (a * 65536 + b * 256) / 4096 % 64 < 64 := Nat.mod_lt _ (by decide)
    have h2 : (a * 65536 + b * 256) / 64 % 64 < 64 := Nat.mod_lt _ (by decide)
    have hp : (StdPadding != '\r' && StdPadding != '\n') = true := by decide
    simp only [encode, List.filter, encodeChar_not_break _ h0, encodeChar_not_break _ h1,
      encodeChar_not_break _ h2, hp]
  | a :: b :: c :: rest => by
    have h0 : (a * 65536 + b * 256 + c) / 262144 % 64 < 64 := Nat.mod_lt _ (by decide)
    have h1 : (a * 65536 + b * 256 + c) / 4096 % 64 < 64 := Nat.mod_lt _ (by decide)
    have h2 : (a * 65536 + b * 256 + c) / 64 % 64 < 64 := Nat.mod_lt _ (by decide)
    have h3 : (a * 65536 + b * 256 + c) % 64 < 64 := Nat.mod_lt _ (by decide)
    simp only [encode, List.filter, encodeChar_not_break _ h0, encodeChar_not_break _ h1,
      encodeChar_not_break _ h2, encodeChar_not_break _ h3, filter_encode rest]

theorem DecodeString_EncodeToString (src : Bytes) (h : ∀ b ∈ src, b < 256) :
    DecodeString (EncodeToString src) = some src := by
  simp only [DecodeString, EncodeToString, filter_encode, decodeQuanta_encode src h]

end base64

namespace gcp

/-! ## The address loops -/

theorem parseAccessConfigs_ok (lib : Stdlib) :
    ∀ (l : List computepb.AccessConfig) (ips : List IP),
      (∀ a ∈ l, lib.ParseIP a.GetNatIP ≠ none) →
      parseAccessConfigs lib l ips =
        .ok (ips ++ (l.map fun a => a.GetNatIP).filterMap lib.ParseIP)
  | [], ips, _ => by simp [parseAccessConfigs]
  | a :: rest, ips, h => by
    have ha : lib.ParseIP a.GetNatIP ≠ none := h a (by simp)
    have hrest : ∀ x ∈ rest, lib.ParseIP x.GetNatIP ≠ none := fun x hx => h x (by simp [hx])
    obtain ⟨ip, hip⟩ := Option.ne_none_iff_exists'.mp ha
    simp [parseAccessConfigs, hip, parseAccessConfigs_ok lib rest _ hrest]

theorem parseAccessConfigs_error (lib : Stdlib) :
    ∀ (l : List computepb.AccessConfig) (ips : List IP),
      (∃ a ∈ l, lib.ParseIP a.GetNatIP = none) →
      ∃ err, parseAccessConfigs lib l ips = .error err
  | [], _, h => by simp at h
  | a :: rest, ips, h => by
    cases hp : lib.ParseIP a.GetNatIP with
    | none =>
      exact ⟨"failed to parse pod node IP " ++ lib.quote a.GetNatIP, by
        simp [parseAccessConfigs, hp]⟩
    | some ip =>
      have hrest : ∃ x ∈ rest, lib.ParseIP x.GetNatIP = none := by
        obtain ⟨x, hx, hxn⟩ := h
        rcases List.mem_cons.mp hx with rfl | hx
        · rw [hp] at hxn; cases hxn
        · exact ⟨x, hx, hxn⟩
      obtain ⟨err, herr⟩ := parseAccessConfigs_error lib rest (ips ++ [ip]) hrest
      exact ⟨err, by simp [parseAccessConfigs, hp, herr]⟩

theorem parseNetworkInterfaces_ok (lib : Stdlib) :
    ∀ (nics : List computepb.NetworkInterface) (ips : List IP),
      (∀ nic ∈ nics, ∀ a ∈ nic.AccessConfigs, lib.ParseIP a.GetNatIP ≠ none) →
      parseNetworkInterfaces lib nics ips =
        .ok (ips ++ (nics.flatMap fun nic => nic.GetAccessConfigs.map fun a =>
          a.GetNatIP).filterMap lib.ParseIP)
  | [], ips, _ => by simp [parseNetworkInterfaces]
  | nic :: rest, ips, h => by
    have hn : ∀ a ∈ nic.AccessConfigs, lib.ParseIP a.GetNatIP ≠ none := h nic (by simp)
    have hrest : ∀ x ∈ rest, ∀ a ∈ x.AccessConfigs, lib.ParseIP a.GetNatIP ≠ none :=
      fun x hx => h x (by simp [hx])
    simp [parseNetworkInterfaces, computepb.NetworkInterface.GetAccessConfigs,
      parseAccessConfigs_ok lib nic.AccessConfigs ips hn,
      parseNetworkInterfaces_ok lib rest _ hrest]

theorem parseNetworkInterfaces_error (lib : Stdlib) :
    ∀ (nics : List computepb.NetworkInterface) (ips : List IP),
      (∃ nic ∈ nics, ∃ a ∈ nic.AccessConfigs, lib.ParseIP a.GetNatIP = none) →
      ∃ err, parseNetworkInterfaces lib nics ips = .error err
  | [], _, h => by simp at h
  | nic :: rest, ips, h => by
    cases hp : parseAccessConfigs lib nic.GetAccessConfigs ips with
    | error err => exact ⟨err, by simp [parseNetworkInterfaces, hp]⟩
    | ok ips1 =>
      have hrest : ∃ x ∈ rest, ∃ a ∈ x.AccessConfigs, lib.ParseIP a.GetNatIP = none := by
        obtain ⟨x, hx, a, ha, han⟩ := h
        rcases List.mem_cons.mp hx with rfl | hx
        · obtain ⟨err, herr⟩ := parseAccessConfigs_error lib x.AccessConfigs ips ⟨a, ha, han⟩
          rw [computepb.NetworkInterface.GetAccessConfigs, herr] at hp
          cases hp
        · exact ⟨x, hx, a, ha, han⟩
      obtain ⟨err, herr⟩ := parseNetworkInterfaces_error lib rest ips1 hrest
      exact ⟨err, by simp [parseNetworkInterfaces, hp, herr]⟩

/-! ## The branches of `CreateInstance` -/

section branches

variable {σ : Type} (lib : Stdlib) (p : gcpProvider σ) (podName sandboxID : String)
  (cloudConfig : cloudinit.CloudConfigGenerator) (spec : cloud.InstanceTypeSpec) (st : σ)

theorem create_generate_error (e : GoError) (hgen : cloudConfig.Generate () = .error e) :
    p.CreateInstance lib podName sandboxID cloudConfig spec st = ⟨.error e, st, []⟩ := by
  simp only [gcpProvider.CreateInstance, hgen]

theorem create_insert_error (userData : Bytes) (err : GoError) (st1 : σ)
    (hgen : cloudConfig.Generate () = .ok userData)
    (hins : p.instancesClient.Insert
      (p.insertReq (util.GenerateInstanceName podName sandboxID maxInstanceNameLen)
        (base64.EncodeToString userData)) st = (.error err, st1)) :
    p.CreateInstance lib podName sandboxID cloudConfig spec st =
      ⟨.error ("Instances.Insert error: " ++ err ++ ". req: " ++ lib.fmtInsertReq
          (p.insertReq (util.GenerateInstanceName podName sandboxID maxInstanceNameLen)
            (base64.EncodeToString userData))), st1,
        [.Insert (p.insertReq (util.GenerateInstanceName podName sandboxID maxInstanceNameLen)
            (base64.EncodeToString userData))]⟩ := by
  simp only [gcpProvider.CreateInstance, hgen, hins]

theorem create_wait_error (userData : Bytes) (op : compute.Operation) (err : GoError)
    (st1 st2 : σ)
    (hgen : cloudConfig.Generate () = .ok userData)
    (hins : p.instancesClient.Insert
      (p.insertReq (util.GenerateInstanceName podName sandboxID maxInstanceNameLen)
        (base64.EncodeToString userData)) st = (.ok op, st1))
    (hwait : p.instancesClient.Wait op st1 = (some err, st2)) :
    p.CreateInstance lib podName sandboxID cloudConfig spec st =
      ⟨.error ("waiting for Instances.Insert error: " ++ err ++ ". req: " ++ lib.fmtInsertReq
          (p.insertReq (util.GenerateInstanceName podName sandboxID maxInstanceNameLen)
            (base64.EncodeToString userData))), st2,
        [.Insert (p.insertReq (util.GenerateInstanceName podName sandboxID maxInstanceNameLen)
            (base64.EncodeToString userData)), .Wait op]⟩ := by
  simp only [gcpProvider.CreateInstance, hgen, hins, hwait]

theorem create_get_error (userData : Bytes) (op : compute.Operation) (err : GoError)
    (st1 st2 st3 : σ)
    (hgen : cloudConfig.Generate () = .ok userData)
    (hins : p.instancesClient.Insert
      (p.insertReq (util.GenerateInstanceName podName sandboxID maxInstanceNameLen)
        (base64.EncodeToString userData)) st = (.ok op, st1))
    (hwait : p.instancesClient.Wait op st1 = (none, st2))
    (hget : p.instancesClient.Get
      (p.getReq (util.GenerateInstanceName podName sandboxID maxInstanceNameLen)) st2 =
        (.error err, st3)) :
    p.CreateInstance lib podName sandboxID cloudConfig spec st =
      ⟨.error ("unable to get instance: " ++ err ++ ", req: " ++ lib.fmtGetReq
          (p.getReq (util.GenerateInstanceName podName sandboxID maxInstanceNameLen))), st3,
        [.Insert (p.insertReq (util.GenerateInstanceName podName sandboxID maxInstanceNameLen)
            (base64.EncodeToString userData)), .Wait op,
          .Get (p.getReq (util.GenerateInstanceName podName sandboxID maxInstanceNameLen))]⟩ := by
  simp only [gcpProvider.CreateInstance, hgen, hins, hwait, hget]

theorem create_fetched (userData : Bytes) (op : compute.Operation)
    (inst : computepb.Instance) (st1 st2 st3 : σ)
    (hgen : cloudConfig.Generate () = .ok userData)
    (hins : p.instancesClient.Insert
      (p.insertReq (util.GenerateInstanceName podName sandboxID maxInstanceNameLen)
        (base64.EncodeToString userData)) st = (.ok op, st1))
    (hwait : p.instancesClient.Wait op st1 = (none, st2))
    (hget : p.instancesClient.Get
      (p.getReq (util.GenerateInstanceName podName sandboxID maxInstanceNameLen)) st2 =
        (.ok inst, st3)) :
    p.CreateInstance lib podName sandboxID cloudConfig spec st =
      ⟨(match parseNetworkInterfaces lib inst.GetNetworkInterfaces [] with
        | .error err => .error err
        | .ok _ => .ok { ID := inst.GetName, Name := inst.GetName, IPs := [] }), st3,
        [.Insert (p.insertReq (util.GenerateInstanceName podName sandboxID maxInstanceNameLen)
            (base64.EncodeToString userData)), .Wait op,
          .Get (p.getReq (util.GenerateInstanceName podName sandboxID maxInstanceNameLen))]⟩ := by
  simp only [gcpProvider.CreateInstance, hgen, hins, hwait, hget]
  cases parseNetworkInterfaces lib inst.GetNetworkInterfaces [] <;> rfl

end branches

/-! ## Inversion of `CreateInstance` -/

section inversion

variable {σ : Type} (lib : Stdlib) (p : gcpProvider σ) (podName sandboxID : String)
  (cloudConfig : cloudinit.CloudConfigGenerator) (spec : cloud.InstanceTypeSpec) (st : σ)

/-- The calls issued by `CreateInstance` are a beginning of insert, wait, get, and
each further call was preceded by the success of the one before. -/
theorem create_calls_shape :
    (p.CreateInstance lib podName sandboxID cloudConfig spec st).calls = [] ∨
    ∃ userData, cloudConfig.Generate () = .ok userData ∧
      ((p.CreateInstance lib podName sandboxID cloudConfig spec st).calls =
          [.Insert (p.insertReq (util.GenerateInstanceName podName sandboxID maxInstanceNameLen)
            (base64.EncodeToString userData))] ∨
        ∃ op st1, p.instancesClient.Insert
            (p.insertReq (util.GenerateInstanceName podName sandboxID maxInstanceNameLen)
              (base64.EncodeToString userData)) st = (.ok op, st1) ∧
          ((p.CreateInstance lib podName sandboxID cloudConfig spec st).calls =
              [.Insert (p.insertReq
                (util.GenerateInstanceName podName sandboxID maxInstanceNameLen)
                (base64.EncodeToString userData)), .Wait op] ∨
            ∃ st2, p.instancesClient.Wait op st1 = (none, st2) ∧
              (p.CreateInstance lib podName sandboxID cloudConfig spec st).calls =
                [.Insert (p.insertReq
                  (util.GenerateInstanceName podName sandboxID maxInstanceNameLen)
                  (base64.EncodeToString userData)), .Wait op,
                 .Get (p.getReq
                  (util.GenerateInstanceName podName sandboxID maxInstanceNameLen))])) := by
  cases hgen : cloudConfig.Generate () with
  | error e =>
    rw [create_generate_error lib p podName sandboxID cloudConfig spec st e hgen]
    exact Or.inl rfl
  | ok userData =>
    refine Or.inr ⟨userData, rfl, ?_⟩
    rcases hins : p.instancesClient.Insert
      (p.insertReq (util.GenerateInstanceName podName sandboxID maxInstanceNameLen)
        (base64.EncodeToString userData)) st with ⟨ri, st1⟩
    cases ri with
    | error err =>
      rw [create_insert_error lib p podName sandboxID cloudConfig spec st userData err st1
        hgen hins]
      exact Or.inl rfl
    | ok op =>
      refine Or.inr ⟨op, st1, rfl, ?_⟩
      rcases hwait : p.instancesClient.Wait op st1 with ⟨w, st2⟩
      cases w with
      | some err =>
        rw [create_wait_error lib p podName sandboxID cloudConfig spec st userData op err
          st1 st2 hgen hins hwait]
        exact Or.inl rfl
      | none =>
        refine Or.inr ⟨st2, rfl, ?_⟩
        rcases hget : p.instancesClient.Get
          (p.getReq (util.GenerateInstanceName podName sandboxID maxInstanceNameLen)) st2
          with ⟨g, st3⟩
        cases g with
        | error err =>
          rw [create_get_error lib p podName sandboxID cloudConfig spec st userData op err
            st1 st2 st3 hgen hins hwait hget]
        | ok inst =>
          rw [create_fetched lib p podName sandboxID cloudConfig spec st userData op inst
            st1 st2 st3 hgen hins hwait hget]

/-- Once the generator has given a payload, the first call is the insert request
built from it, followed at most by a wait and a get. -/
theorem create_calls_of_generate (userData : Bytes)
    (hgen : cloudConfig.Generate () = .ok userData) :
    ∃ rest, (p.CreateInstance lib podName sandboxID cloudConfig spec st).calls =
        .Insert (p.insertReq (util.GenerateInstanceName podName sandboxID maxInstanceNameLen)
          (base64.EncodeToString userData)) :: rest ∧
      (rest = [] ∨ ∃ op, rest = [.Wait op] ∨ rest = [.Wait op,
        .Get (p.getReq (util.GenerateInstanceName podName sandboxID maxInstanceNameLen))]) := by
  rcases create_calls_shape lib p podName sandboxID cloudConfig spec st with h | h
  · exfalso
    revert h
    simp only [gcpProvider.CreateInstance, hgen]
    split
    · simp
    · split
      · simp
      · split
        · simp
        · split <;> simp
  · obtain ⟨u, hu, hshape⟩ := h
    have hu' : u = userData := by
      rw [hgen] at hu
      exact (Except.ok.inj hu).symm
    subst hu'
    rcases hshape with hc | ⟨op, st1, _, hc | ⟨st2, _, hc⟩⟩
    · exact ⟨[], hc, Or.inl rfl⟩
    · exact ⟨_, hc, Or.inr ⟨op, Or.inl rfl⟩⟩
    · exact ⟨_, hc, Or.inr ⟨op, Or.inr rfl⟩⟩

/-- A successful `CreateInstance` went through every step, and its value is built
from the name of the fetched instance, with no addresses. -/
theorem create_ok_inv (r : cloud.Instance)
    (hok : (p.CreateInstance lib podName sandboxID cloudConfig spec st).result = .ok r) :
    ∃ userData op st1 st2 inst ips,
      cloudConfig.Generate () = .ok userData ∧
      p.instancesClient.Insert
        (p.insertReq (util.GenerateInstanceName podName sandboxID maxInstanceNameLen)
          (base64.EncodeToString userData)) st = (.ok op, st1) ∧
      p.instancesClient.Wait op st1 = (none, st2) ∧
      p.instancesClient.Get
        (p.getReq (util.GenerateInstanceName podName sandboxID maxInstanceNameLen)) st2 =
          (.ok inst, (p.CreateInstance lib podName sandboxID cloudConfig spec st).state) ∧
      parseNetworkInterfaces lib inst.GetNetworkInterfaces [] = .ok ips ∧
      r = { ID := inst.GetName, Name := inst.GetName, IPs := [] } := by
  cases hgen : cloudConfig.Generate () with
  | error e =>
    rw [create_generate_error lib p podName sandboxID cloudConfig spec st e hgen] at hok
    cases hok
  | ok userData =>
    rcases hins : p.instancesClient.Insert
      (p.insertReq (util.GenerateInstanceName podName sandboxID maxInstanceNameLen)
        (base64.EncodeToString userData)) st with ⟨ri, st1⟩
    cases ri with
    | error err =>
      rw [create_insert_error lib p podName sandboxID cloudConfig spec st userData err st1
        hgen hins] at hok
      cases hok
    | ok op =>
      rcases hwait : p.instancesClient.Wait op st1 with ⟨w, st2⟩
      cases w with
      | some err =>
        rw [create_wait_error lib p podName sandboxID cloudConfig spec st userData op err
          st1 st2 hgen hins hwait] at hok
        cases hok
      | none =>
        rcases hget : p.instancesClient.Get
          (p.getReq (util.GenerateInstanceName podName sandboxID maxInstanceNameLen)) st2
          with ⟨g, st3⟩
        cases g with
        | error err =>
          rw [create_get_error lib p podName sandboxID cloudConfig spec st userData op err
            st1 st2 st3 hgen hins hwait hget] at hok
          cases hok
        | ok inst =>
          have hrun := create_fetched lib p podName sandboxID cloudConfig spec st userData op
            inst st1 st2 st3 hgen hins hwait hget
          rw [hrun] at hok ⊢
          cases hparse : parseNetworkInterfaces lib inst.GetNetworkInterfaces [] with
          | error err =>
            rw [hparse] at hok
            cases hok
          | ok ips =>
            rw [hparse] at hok
            simp only [Except.ok.injEq] at hok
            exact ⟨userData, op, st1, st2, inst, ips, rfl, hins, hwait, hget, hparse, hok.symm⟩

/-- Every insert and every get issued by `CreateInstance` carries the generated name. -/
theorem create_calls_names :
    (∀ req, compute.Call.Insert req ∈
        (p.CreateInstance lib podName sandboxID cloudConfig spec st).calls →
      (req.InstanceResource.bind fun r => r.Name) =
        some (util.GenerateInstanceName podName sandboxID maxInstanceNameLen)) ∧
    (∀ req, compute.Call.Get req ∈
        (p.CreateInstance lib podName sandboxID cloudConfig spec st).calls →
      req = p.getReq (util.GenerateInstanceName podName sandboxID maxInstanceNameLen)) := by
  rcases create_calls_shape lib p podName sandboxID cloudConfig spec st with h | h
  · rw [h]
    simp
  · obtain ⟨u, _, hc | ⟨op, st1, _, hc | ⟨st2, _, hc⟩⟩⟩ := h <;>
    · rw [hc]
      constructor
      · intro req hreq
        simp only [List.mem_cons, compute.Call.Insert.injEq, reduceCtorEq, List.mem_singleton,
          List.not_mem_nil, or_false] at hreq
        subst hreq
        rfl
      · intro req hreq
        simp only [List.mem_cons, compute.Call.Get.injEq, reduceCtorEq, List.mem_singleton,
          List.not_mem_nil, or_false, false_or] at hreq
        try exact hreq

end inversion

/-! ## Deletion: its branches -/

section deletion

variable {σ : Type} (lib : Stdlib) (p : gcpProvider σ) (instanceID : String) (st : σ)

theorem delete_submit_error (err : GoError) (st1 : σ)
    (hdel : p.instancesClient.Delete
      ⟨p.serviceConfig.ProjectId, p.serviceConfig.Zone, instanceID⟩ st = (.error err, st1)) :
    p.DeleteInstance lib instanceID st =
      ⟨some ("Instances.Delete error: " ++ err ++ ", req: " ++ lib.fmtDeleteReq
          ⟨p.serviceConfig.ProjectId, p.serviceConfig.Zone, instanceID⟩), st1,
        [.Delete ⟨p.serviceConfig.ProjectId, p.serviceConfig.Zone, instanceID⟩]⟩ := by
  simp only [gcpProvider.DeleteInstance, hdel]

theorem delete_wait_error (op : compute.Operation) (err : GoError) (st1 st2 : σ)
    (hdel : p.instancesClient.Delete
      ⟨p.serviceConfig.ProjectId, p.serviceConfig.Zone, instanceID⟩ st = (.ok op, st1))
    (hwait : p.instancesClient.Wait op st1 = (some err, st2)) :
    p.DeleteInstance lib instanceID st =
      ⟨some ("waiting for Instances.Delete error: " ++ err ++ ". req: " ++ lib.fmtDeleteReq
          ⟨p.serviceConfig.ProjectId, p.serviceConfig.Zone, instanceID⟩), st2,
        [.Delete ⟨p.serviceConfig.ProjectId, p.serviceConfig.Zone, instanceID⟩, .Wait op]⟩ := by
  simp only [gcpProvider.DeleteInstance, hdel, hwait]

theorem delete_done (op : compute.Operation) (st1 st2 : σ)
    (hdel : p.instancesClient.Delete
      ⟨p.serviceConfig.ProjectId, p.serviceConfig.Zone, instanceID⟩ st = (.ok op, st1))
    (hwait : p.instancesClient.Wait op st1 = (none, st2)) :
    p.DeleteInstance lib instanceID st =
      ⟨none, st2,
        [.Delete ⟨p.serviceConfig.ProjectId, p.serviceConfig.Zone, instanceID⟩, .Wait op]⟩ := by
  simp only [gcpProvider.DeleteInstance, hdel, hwait]

theorem delete_calls_head :
    ∃ rest, (p.DeleteInstance lib instanceID st).calls =
      .Delete ⟨p.serviceConfig.ProjectId, p.serviceConfig.Zone, instanceID⟩ :: rest := by
  rcases hdel : p.instancesClient.Delete
      ⟨p.serviceConfig.ProjectId, p.serviceConfig.Zone, instanceID⟩ st with ⟨r, st1⟩
  cases r with
  | error err =>
    rw [delete_submit_error lib p instanceID st err st1 hdel]
    exact ⟨[], rfl⟩
  | ok op =>
    rcases hwait : p.instancesClient.Wait op st1 with ⟨w, st2⟩
    cases w with
    | some err =>
      rw [delete_wait_error lib p instanceID st op err st1 st2 hdel hwait]
      exact ⟨_, rfl⟩
    | none =>
      rw [delete_done lib p instanceID st op st1 st2 hdel hwait]
      exact ⟨_, rfl⟩

end deletion

theorem string_length_eq_zero (s : String) : s.length = 0 ↔ s = "" := by
  cases s with
  | mk l => simp [String.length, String.ext_iff]

/-! ## The claims -/

/-- C1: `ConfigVerifier` returns an error exactly when the configured `ImageName` is
the empty string and returns nil for every other image name, whatever the other
configuration fields are; it issues no backend call and leaves the backend
state as it was. -/
theorem ConfigVerifier_error_iff_empty_image {σ : Type} (p : gcpProvider σ) (st : σ) :
    ((∃ err, (p.ConfigVerifier st).result = some err) ↔ p.serviceConfig.ImageName = "") ∧
    ((p.ConfigVerifier st).result = none ↔ p.serviceConfig.ImageName ≠ "") ∧
    (p.ConfigVerifier st).calls = [] ∧ (p.ConfigVerifier st).state = st := by
  unfold gcpProvider.ConfigVerifier
  by_cases h : p.serviceConfig.ImageName.length = 0
  · have h1 := (string_length_eq_zero _).mp h
    simp [h, h1]
  · have h1 : p.serviceConfig.ImageName ≠ "" := fun he => h ((string_length_eq_zero _).mpr he)
    simp [h, h1]

/-- Witness of C1: the sample configuration passes, and the same configuration
with an empty image name is rejected. -/
theorem ConfigVerifier_error_iff_empty_image_witness :
    ((sample.provider (sample.okScript (sample.fetched "x" []))).ConfigVerifier 0).result =
      none ∧
    ∃ err, ((gcpProvider.mk sample.configNoImage
        (sample.client (sample.okScript (sample.fetched "x" [])))).ConfigVerifier 0).result =
      some err :=
  ⟨(ConfigVerifier_error_iff_empty_image
      (sample.provider (sample.okScript (sample.fetched "x" []))) 0).2.1.mpr (by decide),
   (ConfigVerifier_error_iff_empty_image
      (gcpProvider.mk sample.configNoImage
        (sample.client (sample.okScript (sample.fetched "x" [])))) 0).1.mpr rfl⟩

/-- C2: when the generator's `Generate` returns an error `e`, `CreateInstance`
returns no instance and exactly `e`, and issues no backend operation: the list
of calls is empty and the backend state is untouched. -/
theorem CreateInstance_generate_error_returned {σ : Type} (lib : Stdlib) (p : gcpProvider σ)
    (podName sandboxID : String) (cloudConfig : cloudinit.CloudConfigGenerator)
    (spec : cloud.InstanceTypeSpec) (st : σ) (e : GoError)
    (hgen : cloudConfig.Generate () = .error e) :
    (p.CreateInstance lib podName sandboxID cloudConfig spec st).result = .error e ∧
    (p.CreateInstance lib podName sandboxID cloudConfig spec st).calls = [] ∧
    (p.CreateInstance lib podName sandboxID cloudConfig spec st).state = st := by
  rw [create_generate_error lib p podName sandboxID cloudConfig spec st e hgen]
  exact ⟨rfl, rfl, rfl⟩

/-- Witness of C2: a generator failing with `no template`, on a backend in which
every call would succeed. -/
theorem CreateInstance_generate_error_returned_witness :
    ((sample.provider (sample.okScript (sample.fetched "x" []))).CreateInstance sample.lib
        "web" "abc123" ⟨fun _ => .error "no template"⟩ sample.spec 0).result
      = .error "no template" ∧
    ((sample.provider (sample.okScript (sample.fetched "x" []))).CreateInstance sample.lib
        "web" "abc123" ⟨fun _ => .error "no template"⟩ sample.spec 0).calls = [] ∧
    ((sample.provider (sample.okScript (sample.fetched "x" []))).CreateInstance sample.lib
        "web" "abc123" ⟨fun _ => .error "no template"⟩ sample.spec 0).state = 0 :=
  CreateInstance_generate_error_returned sample.lib _ "web" "abc123"
    ⟨fun _ => .error "no template"⟩ sample.spec 0 "no template" rfl

/-- C9: `DeleteInstance` submits one delete request, for the configured project
and zone and with the given ID as instance; the calls it issues are that
request alone when the submission fails, and that request followed by one wait
otherwise (so no wait after a failed submission, no get, no second
submission); it returns nil exactly when the submission and the wait both
succeed, and an error otherwise. -/
theorem DeleteInstance_single_request {σ : Type} (lib : Stdlib) (p : gcpProvider σ)
    (instanceID : String) (st : σ) :
    ((∃ err st1, p.instancesClient.Delete
          ⟨p.serviceConfig.ProjectId, p.serviceConfig.Zone, instanceID⟩ st = (.error err, st1) ∧
        (p.DeleteInstance lib instanceID st).calls =
          [.Delete ⟨p.serviceConfig.ProjectId, p.serviceConfig.Zone, instanceID⟩]) ∨
      (∃ op st1, p.instancesClient.Delete
          ⟨p.serviceConfig.ProjectId, p.serviceConfig.Zone, instanceID⟩ st = (.ok op, st1) ∧
        (p.DeleteInstance lib instanceID st).calls =
          [.Delete ⟨p.serviceConfig.ProjectId, p.serviceConfig.Zone, instanceID⟩, .Wait op])) ∧
    ((p.DeleteInstance lib instanceID st).result = none ↔
      ∃ op st1 st2, p.instancesClient.Delete
          ⟨p.serviceConfig.ProjectId, p.serviceConfig.Zone, instanceID⟩ st = (.ok op, st1) ∧
        p.instancesClient.Wait op st1 = (none, st2)) ∧
    ((∃ err, (p.DeleteInstance lib instanceID st).result = some err) ↔
      ¬ ∃ op st1 st2, p.instancesClient.Delete
          ⟨p.serviceConfig.ProjectId, p.serviceConfig.Zone, instanceID⟩ st = (.ok op, st1) ∧
        p.instancesClient.Wait op st1 = (none, st2)) := by
  rcases hdel : p.instancesClient.Delete
      ⟨p.serviceConfig.ProjectId, p.serviceConfig.Zone, instanceID⟩ st with ⟨r, st1⟩
  cases r with
  | error err =>
    rw [delete_submit_error lib p instanceID st err st1 hdel]
    simp
  | ok op =>
    rcases hwait : p.instancesClient.Wait op st1 with ⟨w, st2⟩
    cases w with
    | some err =>
      rw [delete_wait_error lib p instanceID st op err st1 st2 hdel hwait]
      simp [hwait]
    | none =>
      rw [delete_done lib p instanceID st op st1 st2 hdel hwait]
      exact ⟨Or.inr ⟨op, st1, rfl, rfl⟩,
        ⟨fun _ => ⟨op, st1, st2, rfl, hwait⟩, fun _ => rfl⟩,
        ⟨fun ⟨_, he⟩ => (by cases he), fun hn => absurd ⟨op, st1, st2, rfl, hwait⟩ hn⟩⟩

/-- Witness of C9: on a backend in which the submission and the wait succeed,
`DeleteInstance` returns nil; on a backend that rejects the submission it
issues the delete request alone. -/
theorem DeleteInstance_single_request_witness :
    ((sample.provider (sample.okScript (sample.fetched "x" []))).DeleteInstance sample.lib
      "x" 0).result = none ∧
    ((sample.provider { sample.okScript (sample.fetched "x" []) with
        delete := .error "not found" }).DeleteInstance sample.lib "x" 0).calls =
      [.Delete ⟨"proj", "us-central1-a", "x"⟩] :=
  ⟨(DeleteInstance_single_request sample.lib
      (sample.provider (sample.okScript (sample.fetched "x" []))) "x" 0).2.1.mpr
      ⟨⟨"op-delete"⟩, 1, 2, rfl, rfl⟩,
   ((DeleteInstance_single_request sample.lib
      (sample.provider { sample.okScript (sample.fetched "x" []) with
        delete := .error "not found" }) "x" 0).1.elim (fun h => h.choose_spec.choose_spec.2)
      (fun h => absurd h.choose_spec.choose_spec.1 (by
        intro hc
        cases congrArg Prod.fst hc)))⟩

/-- C3, the code at a failing input: the fetched instance reports the addresses
`203.0.113.7` and `10.0.0.2` on two interfaces, both parse, the loops collect
the two parsed addresses in encounter order, and the instance returned by
`CreateInstance` nevertheless has an empty `IPs` field. -/
theorem CreateInstance_drops_parsed_addresses :
    reportedNatIPs (sample.fetched "x" [[some "203.0.113.7"], [some "10.0.0.2"]]) =
      ["203.0.113.7", "10.0.0.2"] ∧
    parseNetworkInterfaces sample.lib
      (sample.fetched "x" [[some "203.0.113.7"], [some "10.0.0.2"]]).GetNetworkInterfaces [] =
      .ok [[203, 0, 113, 7], [10, 0, 0, 2]] ∧
    ((sample.provider (sample.okScript
        (sample.fetched "x" [[some "203.0.113.7"], [some "10.0.0.2"]]))).CreateInstance
        sample.lib "web" "abc123" sample.generator sample.spec 0).result =
      .ok { ID := "x", Name := "x", IPs := [] } :=
  ⟨rfl, rfl, rfl⟩

/-- C4: once Generate, Insert, Wait and Get have succeeded, `CreateInstance` returns
an error (and no instance) exactly when some access configuration of some
network interface of the fetched instance reports an address string that does
not parse, and returns an instance (and no error) exactly when every reported
address string parses. In particular, if the empty string does not parse, an
access configuration whose address is unset or empty makes the call fail. -/
theorem CreateInstance_fails_iff_unparsable_address {σ : Type} (lib : Stdlib)
    (p : gcpProvider σ) (podName sandboxID : String)
    (cloudConfig : cloudinit.CloudConfigGenerator) (spec : cloud.InstanceTypeSpec) (st : σ)
    (userData : Bytes) (op : compute.Operation) (inst : computepb.Instance) (st1 st2 st3 : σ)
    (hgen : cloudConfig.Generate () = .ok userData)
    (hins : p.instancesClient.Insert
      (p.insertReq (util.GenerateInstanceName podName sandboxID maxInstanceNameLen)
        (base64.EncodeToString userData)) st = (.ok op, st1))
    (hwait : p.instancesClient.Wait op st1 = (none, st2))
    (hget : p.instancesClient.Get
      (p.getReq (util.GenerateInstanceName podName sandboxID maxInstanceNameLen)) st2 =
        (.ok inst, st3)) :
    ((∃ err, (p.CreateInstance lib podName sandboxID cloudConfig spec st).result = .error err) ↔
      ∃ nic ∈ inst.NetworkInterfaces, ∃ access ∈ nic.AccessConfigs,
        lib.ParseIP access.GetNatIP = none) ∧
    ((∃ r, (p.CreateInstance lib podName sandboxID cloudConfig spec st).result = .ok r) ↔
      ∀ nic ∈ inst.NetworkInterfaces, ∀ access ∈ nic.AccessConfigs,
        lib.ParseIP access.GetNatIP ≠ none) ∧
    (lib.ParseIP "" = none →
      (∃ nic ∈ inst.NetworkInterfaces, ∃ access ∈ nic.AccessConfigs,
        access.NatIP = none ∨ access.NatIP = some "") →
      ∃ err, (p.CreateInstance lib podName sandboxID cloudConfig spec st).result =
        .error err) := by
  rw [create_fetched lib p podName sandboxID cloudConfig spec st userData op inst st1 st2 st3
    hgen hins hwait hget]
  by_cases hbad : ∃ nic ∈ inst.NetworkInterfaces, ∃ access ∈ nic.AccessConfigs,
      lib.ParseIP access.GetNatIP = none
  · obtain ⟨err, herr⟩ := parseNetworkInterfaces_error lib inst.NetworkInterfaces [] hbad
    have hnot : ¬ ∀ nic ∈ inst.NetworkInterfaces, ∀ access ∈ nic.AccessConfigs,
        lib.ParseIP access.GetNatIP ≠ none := by
      obtain ⟨nic, hnic, access, hacc, hnone⟩ := hbad
      exact fun hall => hall nic hnic access hacc hnone
    simp only [computepb.Instance.GetNetworkInterfaces, herr]
    refine ⟨⟨fun _ => hbad, fun _ => ⟨err, rfl⟩⟩, ⟨fun ⟨r, hr⟩ => (by cases hr),
      fun hall => absurd hall hnot⟩, fun _ _ => ⟨err, rfl⟩⟩
  · have hall : ∀ nic ∈ inst.NetworkInterfaces, ∀ access ∈ nic.AccessConfigs,
        lib.ParseIP access.GetNatIP ≠ none := by
      intro nic hnic access hacc hnone
      exact hbad ⟨nic, hnic, access, hacc, hnone⟩
    have hok := parseNetworkInterfaces_ok lib inst.NetworkInterfaces [] hall
    simp only [computepb.Instance.GetNetworkInterfaces, hok]
    refine ⟨⟨fun ⟨e, he⟩ => (by cases he), fun h => absurd h hbad⟩,
      ⟨fun _ => hall, fun _ => ⟨_, rfl⟩⟩, ?_⟩
    intro hempty ⟨nic, hnic, access, hacc, hunset⟩
    have hnone : lib.ParseIP access.GetNatIP = none := by
      rcases hunset with h | h <;> simp [computepb.AccessConfig.GetNatIP, h, hempty]
    exact absurd ⟨nic, hnic, access, hacc, hnone⟩ hbad

/-- Witness of C4: on a backend in which every call succeeds, a fetched instance
reporting `203.0.113.7` and then an unset address makes `CreateInstance` fail,
and a fetched instance reporting two addresses that parse makes it succeed. -/
theorem CreateInstance_fails_iff_unparsable_address_witness :
    (∃ err, ((sample.provider (sample.okScript
        (sample.fetched "x" [[some "203.0.113.7", none]]))).CreateInstance
        sample.lib "web" "abc123" sample.generator sample.spec 0).result = .error err) ∧
    (∃ r, ((sample.provider (sample.okScript
        (sample.fetched "x" [[some "203.0.113.7"], [some "10.0.0.2"]]))).CreateInstance
        sample.lib "web" "abc123" sample.generator sample.spec 0).result = .ok r) :=
  ⟨(CreateInstance_fails_iff_unparsable_address sample.lib
      (sample.provider (sample.okScript (sample.fetched "x" [[some "203.0.113.7", none]])))
      "web" "abc123" sample.generator sample.spec 0 [77, 97, 110] ⟨"op-insert"⟩
      (sample.fetched "x" [[some "203.0.113.7", none]]) 1 2 3 rfl rfl rfl rfl).2.2 rfl
      ⟨_, List.mem_singleton.mpr rfl, ⟨none, none, none⟩, by decide, Or.inl rfl⟩,
   (CreateInstance_fails_iff_unparsable_address sample.lib
      (sample.provider (sample.okScript
        (sample.fetched "x" [[some "203.0.113.7"], [some "10.0.0.2"]])))
      "web" "abc123" sample.generator sample.spec 0 [77, 97, 110] ⟨"op-insert"⟩
      (sample.fetched "x" [[some "203.0.113.7"], [some "10.0.0.2"]]) 1 2 3
      rfl rfl rfl rfl).2.1.mpr (by decide)⟩

/-- C5: for every payload the generator gives, the first call of `CreateInstance` is
an insert whose metadata has exactly two items, in this order: `user-data` with
the standard base64 encoding of the payload bytes, and `user-data-encoding`
with the value `base64`; decoding the `user-data` value with the standard
decoder gives back the payload bytes. -/
theorem CreateInstance_metadata_base64_roundtrip {σ : Type} (lib : Stdlib)
    (p : gcpProvider σ) (podName sandboxID : String)
    (cloudConfig : cloudinit.CloudConfigGenerator) (spec : cloud.InstanceTypeSpec) (st : σ)
    (userData : Bytes) (hgen : cloudConfig.Generate () = .ok userData)
    (hbytes : ∀ b ∈ userData, b < 256) :
    ∃ req rest v,
      (p.CreateInstance lib podName sandboxID cloudConfig spec st).calls = .Insert req :: rest ∧
      (req.InstanceResource.bind fun r => r.Metadata).map (fun m => m.Items) =
        some [{ Key := some "user-data", Value := some v },
              { Key := some "user-data-encoding", Value := some "base64" }] ∧
      v = base64.EncodeToString userData ∧
      base64.DecodeString v = some userData := by
  obtain ⟨rest, hc, _⟩ :=
    create_calls_of_generate lib p podName sandboxID cloudConfig spec st userData hgen
  exact ⟨_, rest, base64.EncodeToString userData, hc, rfl, rfl,
    base64.DecodeString_EncodeToString userData hbytes⟩

/-- Witness of C5: the payload `Man` travels as `TWFu` and decodes back. -/
theorem CreateInstance_metadata_base64_roundtrip_witness :
    ∃ req rest v,
      ((sample.provider (sample.okScript (sample.fetched "x" []))).CreateInstance sample.lib
        "web" "abc123" sample.generator sample.spec 0).calls = .Insert req :: rest ∧
      (req.InstanceResource.bind fun r => r.Metadata).map (fun m => m.Items) =
        some [{ Key := some "user-data", Value := some v },
              { Key := some "user-data-encoding", Value := some "base64" }] ∧
      v = base64.EncodeToString [77, 97, 110] ∧
      base64.DecodeString v = some [77, 97, 110] :=
  CreateInstance_metadata_base64_roundtrip sample.lib
    (sample.provider (sample.okScript (sample.fetched "x" []))) "web" "abc123"
    sample.generator sample.spec 0 [77, 97, 110] rfl (by decide)

theorem GenerateInstanceName_length_le (podName sandboxID : String) (podvmNameMax : Nat) :
    (util.GenerateInstanceName podName sandboxID podvmNameMax).length ≤ podvmNameMax := by
  simp only [util.GenerateInstanceName, String.length, List.length_take]
  exact Nat.min_le_left _ _

/-- C6: once the generator has given a payload, `CreateInstance` issues an insert
request as its first call, and the name in it is
`GenerateInstanceName(podName, sandboxID, 63)`, of at most 63 characters; once
insert and wait have succeeded as well, the calls issued are that insert, the
wait, and a get request for the configured project and zone whose instance is
the same name. No insert or get request with any other name is ever issued.
The name is a function of the pod name and the sandbox ID alone: a second call
for the same identity, on any other provider, backend state, generator and
instance-type spec, issues its insert request under the same name. -/
theorem CreateInstance_name_bounded_deterministic {σ : Type} (lib : Stdlib)
    (p : gcpProvider σ) (podName sandboxID : String)
    (cloudConfig : cloudinit.CloudConfigGenerator) (spec : cloud.InstanceTypeSpec) (st : σ) :
    (∀ userData, cloudConfig.Generate () = .ok userData →
      ∃ req rest name,
        (p.CreateInstance lib podName sandboxID cloudConfig spec st).calls =
          .Insert req :: rest ∧
        (req.InstanceResource.bind fun r => r.Name) = some name ∧
        name = util.GenerateInstanceName podName sandboxID 63 ∧
        name.length ≤ 63) ∧
    (∀ userData op st1 st2, cloudConfig.Generate () = .ok userData →
      p.instancesClient.Insert
        (p.insertReq (util.GenerateInstanceName podName sandboxID 63)
          (base64.EncodeToString userData)) st = (.ok op, st1) →
      p.instancesClient.Wait op st1 = (none, st2) →
      (p.CreateInstance lib podName sandboxID cloudConfig spec st).calls =
        [.Insert (p.insertReq (util.GenerateInstanceName podName sandboxID 63)
            (base64.EncodeToString userData)), .Wait op,
         .Get ⟨p.serviceConfig.ProjectId, p.serviceConfig.Zone,
           util.GenerateInstanceName podName sandboxID 63⟩]) ∧
    (∀ req, compute.Call.Insert req ∈
        (p.CreateInstance lib podName sandboxID cloudConfig spec st).calls →
      (req.InstanceResource.bind fun r => r.Name) =
        some (util.GenerateInstanceName podName sandboxID 63)) ∧
    (∀ req, compute.Call.Get req ∈
        (p.CreateInstance lib podName sandboxID cloudConfig spec st).calls →
      req.Instance = util.GenerateInstanceName podName sandboxID 63) ∧
    (util.GenerateInstanceName podName sandboxID 63).length ≤ 63 ∧
    (∀ (lib2 : Stdlib) (p2 : gcpProvider σ) (cloudConfig2 : cloudinit.CloudConfigGenerator)
        (spec2 : cloud.InstanceTypeSpec) (st2 : σ) (userData userData2 : Bytes),
      cloudConfig.Generate () = .ok userData → cloudConfig2.Generate () = .ok userData2 →
      ∃ req rest req2 rest2,
        (p.CreateInstance lib podName sandboxID cloudConfig spec st).calls =
          .Insert req :: rest ∧
        (p2.CreateInstance lib2 podName sandboxID cloudConfig2 spec2 st2).calls =
          .Insert req2 :: rest2 ∧
        (req.InstanceResource.bind fun r => r.Name) =
          (req2.InstanceResource.bind fun r => r.Name)) ∧
    (∀ (lib2 : Stdlib) (p2 : gcpProvider σ) (cloudConfig2 : cloudinit.CloudConfigGenerator)
        (spec2 : cloud.InstanceTypeSpec) (st2 : σ) (req req2 : computepb.InsertInstanceRequest),
      compute.Call.Insert req ∈
        (p.CreateInstance lib podName sandboxID cloudConfig spec st).calls →
      compute.Call.Insert req2 ∈
        (p2.CreateInstance lib2 podName sandboxID cloudConfig2 spec2 st2).calls →
      (req.InstanceResource.bind fun r => r.Name) =
        (req2.InstanceResource.bind fun r => r.Name)) := by
  have h1 := create_calls_names lib p podName sandboxID cloudConfig spec st
  refine ⟨?_, ?_, h1.1, ?_, GenerateInstanceName_length_le podName sandboxID 63, ?_, ?_⟩
  · intro userData hgen
    obtain ⟨rest, hc, _⟩ :=
      create_calls_of_generate lib p podName sandboxID cloudConfig spec st userData hgen
    exact ⟨_, rest, util.GenerateInstanceName podName sandboxID 63, hc, rfl, rfl,
      GenerateInstanceName_length_le podName sandboxID 63⟩
  · intro userData op st1 st2 hgen hins hwait
    rcases hget : p.instancesClient.Get
      (p.getReq (util.GenerateInstanceName podName sandboxID maxInstanceNameLen)) st2
      with ⟨g, st3⟩
    cases g with
    | error err =>
      rw [create_get_error lib p podName sandboxID cloudConfig spec st userData op err
        st1 st2 st3 hgen hins hwait hget]
      rfl
    | ok inst =>
      rw [create_fetched lib p podName sandboxID cloudConfig spec st userData op inst
        st1 st2 st3 hgen hins hwait hget]
      rfl
  · intro req hreq
    rw [h1.2 req hreq]
    rfl
  · intro lib2 p2 cloudConfig2 spec2 st2 userData userData2 hgen hgen2
    obtain ⟨rest, hc, _⟩ :=
      create_calls_of_generate lib p podName sandboxID cloudConfig spec st userData hgen
    obtain ⟨rest2, hc2, _⟩ :=
      create_calls_of_generate lib2 p2 podName sandboxID cloudConfig2 spec2 st2 userData2 hgen2
    exact ⟨_, rest, _, rest2, hc, hc2, rfl⟩
  · intro lib2 p2 cloudConfig2 spec2 st2 req req2 hreq hreq2
    rw [h1.1 req hreq,
      (create_calls_names lib2 p2 podName sandboxID cloudConfig2 spec2 st2).1 req2 hreq2]

/-- Witness of C6: for pod `web` and sandbox `abc123`, on a backend in which every
call succeeds, `CreateInstance` issues an insert, a wait and a get; the insert
and the get both carry the generated name. -/
theorem CreateInstance_name_bounded_deterministic_witness :
    ((sample.provider (sample.okScript (sample.fetched "x" []))).CreateInstance sample.lib
        "web" "abc123" sample.generator sample.spec 0).calls =
      [.Insert ((sample.provider (sample.okScript (sample.fetched "x" []))).insertReq
          (util.GenerateInstanceName "web" "abc123" 63) (base64.EncodeToString [77, 97, 110])),
       .Wait ⟨"op-insert"⟩,
       .Get ⟨"proj", "us-central1-a", util.GenerateInstanceName "web" "abc123" 63⟩] ∧
    (((sample.provider (sample.okScript (sample.fetched "x" []))).insertReq
        (util.GenerateInstanceName "web" "abc123" 63)
        (base64.EncodeToString [77, 97, 110])).InstanceResource.bind fun r => r.Name) =
      some (util.GenerateInstanceName "web" "abc123" 63) ∧
    (util.GenerateInstanceName "web" "abc123" 63).length ≤ 63 :=
  ⟨(CreateInstance_name_bounded_deterministic sample.lib
      (sample.provider (sample.okScript (sample.fetched "x" []))) "web" "abc123"
      sample.generator sample.spec 0).2.1 [77, 97, 110] ⟨"op-insert"⟩ 1 2 rfl rfl rfl,
   (CreateInstance_name_bounded_deterministic sample.lib
      (sample.provider (sample.okScript (sample.fetched "x" []))) "web" "abc123"
      sample.generator sample.spec 0).2.2.1 _
      ((CreateInstance_name_bounded_deterministic sample.lib
        (sample.provider (sample.okScript (sample.fetched "x" []))) "web" "abc123"
        sample.generator sample.spec 0).2.1 [77, 97, 110] ⟨"op-insert"⟩ 1 2 rfl rfl rfl ▸
        List.mem_cons_self _ _),
   (CreateInstance_name_bounded_deterministic sample.lib
      (sample.provider (sample.okScript (sample.fetched "x" []))) "web" "abc123"
      sample.generator sample.spec 0).2.2.2.2.1⟩

/-- C7: once the generator has given a payload, the first call of `CreateInstance` is
an insert request with project `ProjectId` and zone `Zone`; exactly one disk,
of 20 GB, type `PERSISTENT`, auto-delete and boot set, source image
`projects/<ProjectId>/global/images/<ImageName>` and disk type
`zones/<Zone>/diskTypes/pd-standard`; machine type
`zones/<Zone>/machineTypes/<MachineType>`; and exactly one network interface
(named after `Network`) with stack type `IPV4_Only` and exactly one access
configuration, named `External NAT`, of tier `PREMIUM`. These fields are the
same in any other call made under the same configuration, whatever the pod
name, sandbox ID, payload, instance-type spec, backend and backend state. -/
theorem CreateInstance_insert_request_shape {σ : Type} (lib : Stdlib)
    (p : gcpProvider σ) (podName sandboxID : String)
    (cloudConfig : cloudinit.CloudConfigGenerator) (spec : cloud.InstanceTypeSpec) (st : σ)
    (userData : Bytes) (hgen : cloudConfig.Generate () = .ok userData) :
    ∃ req rest,
      (p.CreateInstance lib podName sandboxID cloudConfig spec st).calls = .Insert req :: rest ∧
      req.Project = p.serviceConfig.ProjectId ∧
      req.Zone = p.serviceConfig.Zone ∧
      req.InstanceResource.map (fun r => r.Disks) = some
        [{ InitializeParams := some
             { DiskSizeGb := some 20
               SourceImage := some ("projects/" ++ p.serviceConfig.ProjectId ++
                 "/global/images/" ++ p.serviceConfig.ImageName)
               DiskType := some ("zones/" ++ p.serviceConfig.Zone ++ "/diskTypes/pd-standard") }
           AutoDelete := some true
           Boot := some true
           Type_ := some "PERSISTENT" }] ∧
      (req.InstanceResource.bind fun r => r.MachineType) = some
        ("zones/" ++ p.serviceConfig.Zone ++ "/machineTypes/" ++ p.serviceConfig.MachineType) ∧
      req.InstanceResource.map (fun r => r.NetworkInterfaces) = some
        [{ AccessConfigs :=
             [{ Name := some "External NAT", NetworkTier := some "PREMIUM", NatIP := none }]
           StackType := some "IPV4_Only"
           Name := some p.serviceConfig.Network }] ∧
      ∀ (lib2 : Stdlib) (p2 : gcpProvider σ) (podName2 sandboxID2 : String)
        (cloudConfig2 : cloudinit.CloudConfigGenerator) (spec2 : cloud.InstanceTypeSpec)
        (st2 : σ) (userData2 : Bytes),
        p2.serviceConfig = p.serviceConfig → cloudConfig2.Generate () = .ok userData2 →
        ∃ req2 rest2,
          (p2.CreateInstance lib2 podName2 sandboxID2 cloudConfig2 spec2 st2).calls =
            .Insert req2 :: rest2 ∧
          req2.Project = req.Project ∧ req2.Zone = req.Zone ∧
          req2.InstanceResource.map (fun r => r.Disks) =
            req.InstanceResource.map (fun r => r.Disks) ∧
          (req2.InstanceResource.bind fun r => r.MachineType) =
            (req.InstanceResource.bind fun r => r.MachineType) ∧
          req2.InstanceResource.map (fun r => r.NetworkInterfaces) =
            req.InstanceResource.map (fun r => r.NetworkInterfaces) := by
  obtain ⟨rest, hc, _⟩ :=
    create_calls_of_generate lib p podName sandboxID cloudConfig spec st userData hgen
  refine ⟨_, rest, hc, rfl, rfl, rfl, rfl, rfl, ?_⟩
  intro lib2 p2 podName2 sandboxID2 cloudConfig2 spec2 st2 userData2 hcfg hgen2
  obtain ⟨rest2, hc2, _⟩ :=
    create_calls_of_generate lib2 p2 podName2 sandboxID2 cloudConfig2 spec2 st2 userData2 hgen2
  refine ⟨_, rest2, hc2, ?_, ?_, ?_, ?_, ?_⟩ <;> simp [gcpProvider.insertReq, hcfg]

/-- Witness of C7: the request built for the sample configuration. -/
theorem CreateInstance_insert_request_shape_witness :
    ∃ req rest,
      ((sample.provider (sample.okScript (sample.fetched "x" []))).CreateInstance sample.lib
        "web" "abc123" sample.generator sample.spec 0).calls = .Insert req :: rest ∧
      req.Project = "proj" ∧ req.Zone = "us-central1-a" ∧
      req.InstanceResource.map (fun r => r.Disks) = some
        [{ InitializeParams := some
             { DiskSizeGb := some 20
               SourceImage := some "projects/proj/global/images/podvm-image"
               DiskType := some "zones/us-central1-a/diskTypes/pd-standard" }
           AutoDelete := some true
           Boot := some true
           Type_ := some "PERSISTENT" }] ∧
      (req.InstanceResource.bind fun r => r.MachineType) =
        some "zones/us-central1-a/machineTypes/e2-medium" ∧
      req.InstanceResource.map (fun r => r.NetworkInterfaces) = some
        [{ AccessConfigs :=
             [{ Name := some "External NAT", NetworkTier := some "PREMIUM", NatIP := none }]
           StackType := some "IPV4_Only"
           Name := some "default" }] := by
  obtain ⟨req, rest, hc, h1, h2, h3, h4, h5, _⟩ :=
    CreateInstance_insert_request_shape sample.lib
      (sample.provider (sample.okScript (sample.fetched "x" []))) "web" "abc123"
      sample.generator sample.spec 0 [77, 97, 110] rfl
  exact ⟨req, rest, hc, h1, h2, h3.trans (by decide), h4.trans (by decide),
    h5.trans (by decide)⟩

theorem wait_message_ne_submit_message (err r : String) :
    "waiting for Instances.Insert error: " ++ err ++ ". req: " ++ r ≠
      "Instances.Insert error: " ++ err ++ ". req: " ++ r := by
  intro h
  have hd := congrArg (fun x => x.data.head?) h
  simp at hd

/-- C8: with a payload from the generator and `req` the insert request built from it:
a failed submission returns an error whose message ends with the rendering of
`req`, returns no instance, and issues the insert alone (no wait, no get); a
failed wait returns an error and issues the insert and the wait alone (no
get); a get is issued only if insert and wait both succeeded before it; and
for the same underlying error and request the message of the wait failure
differs from the message of the submission failure. -/
theorem CreateInstance_submit_and_wait_failures {σ : Type} (lib : Stdlib)
    (p : gcpProvider σ) (podName sandboxID : String)
    (cloudConfig : cloudinit.CloudConfigGenerator) (spec : cloud.InstanceTypeSpec) (st : σ)
    (userData : Bytes) (hgen : cloudConfig.Generate () = .ok userData) :
    (∀ err st1, p.instancesClient.Insert
        (p.insertReq (util.GenerateInstanceName podName sandboxID maxInstanceNameLen)
          (base64.EncodeToString userData)) st = (.error err, st1) →
      (p.CreateInstance lib podName sandboxID cloudConfig spec st).result =
        .error ("Instances.Insert error: " ++ err ++ ". req: " ++ lib.fmtInsertReq
          (p.insertReq (util.GenerateInstanceName podName sandboxID maxInstanceNameLen)
            (base64.EncodeToString userData))) ∧
      (p.CreateInstance lib podName sandboxID cloudConfig spec st).calls =
        [.Insert (p.insertReq (util.GenerateInstanceName podName sandboxID maxInstanceNameLen)
          (base64.EncodeToString userData))]) ∧
    (∀ op st1 err st2, p.instancesClient.Insert
        (p.insertReq (util.GenerateInstanceName podName sandboxID maxInstanceNameLen)
          (base64.EncodeToString userData)) st = (.ok op, st1) →
      p.instancesClient.Wait op st1 = (some err, st2) →
      (p.CreateInstance lib podName sandboxID cloudConfig spec st).result =
        .error ("waiting for Instances.Insert error: " ++ err ++ ". req: " ++ lib.fmtInsertReq
          (p.insertReq (util.GenerateInstanceName podName sandboxID maxInstanceNameLen)
            (base64.EncodeToString userData))) ∧
      (p.CreateInstance lib podName sandboxID cloudConfig spec st).calls =
        [.Insert (p.insertReq (util.GenerateInstanceName podName sandboxID maxInstanceNameLen)
          (base64.EncodeToString userData)), .Wait op]) ∧
    (∀ g, compute.Call.Get g ∈
        (p.CreateInstance lib podName sandboxID cloudConfig spec st).calls →
      ∃ op st1 st2, p.instancesClient.Insert
          (p.insertReq (util.GenerateInstanceName podName sandboxID maxInstanceNameLen)
            (base64.EncodeToString userData)) st = (.ok op, st1) ∧
        p.instancesClient.Wait op st1 = (none, st2) ∧
        (p.CreateInstance lib podName sandboxID cloudConfig spec st).calls =
          [.Insert (p.insertReq (util.GenerateInstanceName podName sandboxID maxInstanceNameLen)
            (base64.EncodeToString userData)), .Wait op, .Get g]) ∧
    (∀ err : GoError,
      "waiting for Instances.Insert error: " ++ err ++ ". req: " ++ lib.fmtInsertReq
          (p.insertReq (util.GenerateInstanceName podName sandboxID maxInstanceNameLen)
            (base64.EncodeToString userData)) ≠
        "Instances.Insert error: " ++ err ++ ". req: " ++ lib.fmtInsertReq
          (p.insertReq (util.GenerateInstanceName podName sandboxID maxInstanceNameLen)
            (base64.EncodeToString userData))) := by
  refine ⟨?_, ?_, ?_, fun err => wait_message_ne_submit_message err _⟩
  · intro err st1 hins
    rw [create_insert_error lib p podName sandboxID cloudConfig spec st userData err st1
      hgen hins]
    exact ⟨rfl, rfl⟩
  · intro op st1 err st2 hins hwait
    rw [create_wait_error lib p podName sandboxID cloudConfig spec st userData op err st1 st2
      hgen hins hwait]
    exact ⟨rfl, rfl⟩
  · intro g hg
    rcases create_calls_shape lib p podName sandboxID cloudConfig spec st with h | h
    · rw [h] at hg
      cases hg
    · obtain ⟨u, hu, hshape⟩ := h
      have hu' : u = userData := by
        rw [hgen] at hu
        exact (Except.ok.inj hu).symm
      subst hu'
      rcases hshape with hc | ⟨op, st1, hins, hc | ⟨st2, hwait, hc⟩⟩
      · rw [hc] at hg
        simp at hg
      · rw [hc] at hg
        simp at hg
      · have hg' := hg
        rw [hc] at hg'
        simp only [List.mem_cons, reduceCtorEq, compute.Call.Get.injEq, List.mem_singleton,
          List.not_mem_nil, or_false, false_or] at hg'
        subst hg'
        exact ⟨op, st1, st2, hins, hwait, hc⟩

/-- Witness of C8: a backend that rejects the submission with `quota exceeded`. -/
theorem CreateInstance_submit_and_wait_failures_witness :
    ((sample.provider { sample.okScript (sample.fetched "x" []) with
        insert := .error "quota exceeded" }).CreateInstance sample.lib
        "web" "abc123" sample.generator sample.spec 0).result =
      .error "Instances.Insert error: quota exceeded. req: project:proj zone:us-central1-a" ∧
    ((sample.provider { sample.okScript (sample.fetched "x" []) with
        insert := .error "quota exceeded" }).CreateInstance sample.lib
        "web" "abc123" sample.generator sample.spec 0).calls.length = 1 := by
  have h := (CreateInstance_submit_and_wait_failures sample.lib
    (sample.provider { sample.okScript (sample.fetched "x" []) with
      insert := .error "quota exceeded" }) "web" "abc123" sample.generator sample.spec 0
    [77, 97, 110] rfl).1 "quota exceeded" 1 rfl
  exact ⟨h.1.trans rfl, by rw [h.2]; rfl⟩

/-- C10: when `CreateInstance` succeeds, insert, wait and get all succeeded, and the
`ID` and the `Name` of the returned instance are both the name carried by the
answer of the get request (whatever its numeric id). Hence, when that answer
carries the requested name, `ID` is `GenerateInstanceName(podName, sandboxID,
63)`, and `DeleteInstance` on that `ID` submits a delete request for the
project, zone and instance name that `CreateInstance` inserted and fetched. -/
theorem CreateInstance_ID_is_fetched_name {σ : Type} (lib : Stdlib)
    (p : gcpProvider σ) (podName sandboxID : String)
    (cloudConfig : cloudinit.CloudConfigGenerator) (spec : cloud.InstanceTypeSpec) (st : σ)
    (r : cloud.Instance)
    (hok : (p.CreateInstance lib podName sandboxID cloudConfig spec st).result = .ok r) :
    ∃ insertReq op st1 st2 inst,
      p.instancesClient.Insert insertReq st = (.ok op, st1) ∧
      p.instancesClient.Wait op st1 = (none, st2) ∧
      p.instancesClient.Get ⟨p.serviceConfig.ProjectId, p.serviceConfig.Zone,
          util.GenerateInstanceName podName sandboxID 63⟩ st2 =
        (.ok inst, (p.CreateInstance lib podName sandboxID cloudConfig spec st).state) ∧
      (p.CreateInstance lib podName sandboxID cloudConfig spec st).calls =
        [.Insert insertReq, .Wait op,
         .Get ⟨p.serviceConfig.ProjectId, p.serviceConfig.Zone,
           util.GenerateInstanceName podName sandboxID 63⟩] ∧
      insertReq.Project = p.serviceConfig.ProjectId ∧
      insertReq.Zone = p.serviceConfig.Zone ∧
      (insertReq.InstanceResource.bind fun x => x.Name) =
        some (util.GenerateInstanceName podName sandboxID 63) ∧
      r.ID = inst.GetName ∧ r.Name = inst.GetName ∧
      (inst.Name = some (util.GenerateInstanceName podName sandboxID 63) →
        r.ID = util.GenerateInstanceName podName sandboxID 63 ∧
        ∀ st4 : σ, ∃ rest, (p.DeleteInstance lib r.ID st4).calls =
          .Delete ⟨p.serviceConfig.ProjectId, p.serviceConfig.Zone,
            util.GenerateInstanceName podName sandboxID 63⟩ :: rest) := by
  obtain ⟨userData, op, st1, st2, inst, ips, hgen, hins, hwait, hget, hparse, hr⟩ :=
    create_ok_inv lib p podName sandboxID cloudConfig spec st r hok
  have hcalls : (p.CreateInstance lib podName sandboxID cloudConfig spec st).calls =
      [.Insert (p.insertReq (util.GenerateInstanceName podName sandboxID maxInstanceNameLen)
          (base64.EncodeToString userData)), .Wait op,
        .Get (p.getReq (util.GenerateInstanceName podName sandboxID maxInstanceNameLen))] := by
    rw [create_fetched lib p podName sandboxID cloudConfig spec st userData op inst st1 st2 _
      hgen hins hwait hget]
  refine ⟨_, op, st1, st2, inst, hins, hwait, hget, hcalls, rfl, rfl, rfl, ?_, ?_, ?_⟩
  · rw [hr]
  · rw [hr]
  · intro hname
    have hid : r.ID = util.GenerateInstanceName podName sandboxID 63 := by
      rw [hr]
      simp [computepb.Instance.GetName, hname]
    refine ⟨hid, fun st4 => ?_⟩
    rw [hid]
    exact delete_calls_head lib p _ st4

/-- Witness of C10: the backend answers the get request with numeric id 42 and the
requested name; `CreateInstance` returns that name as `ID` and as `Name`. -/
theorem CreateInstance_ID_is_fetched_name_witness :
    ((sample.provider (sample.okScript (sample.fetched
        (util.GenerateInstanceName "web" "abc123" 63) []))).CreateInstance sample.lib
        "web" "abc123" sample.generator sample.spec 0).result =
      .ok ⟨util.GenerateInstanceName "web" "abc123" 63,
        util.GenerateInstanceName "web" "abc123" 63, []⟩ ∧
    ∃ insertReq op st1 st2 inst,
      (sample.client (sample.okScript (sample.fetched
        (util.GenerateInstanceName "web" "abc123" 63) []))).Insert insertReq 0 =
          (.ok op, st1) ∧
      (sample.client (sample.okScript (sample.fetched
        (util.GenerateInstanceName "web" "abc123" 63) []))).Wait op st1 = (none, st2) ∧
      (sample.client (sample.okScript (sample.fetched
        (util.GenerateInstanceName "web" "abc123" 63) []))).Get
          ⟨"proj", "us-central1-a", util.GenerateInstanceName "web" "abc123" 63⟩ st2 =
        (.ok inst, 3) ∧
      util.GenerateInstanceName "web" "abc123" 63 = inst.GetName := by
  obtain ⟨insertReq, op, st1, st2, inst, hins, hwait, hget, _, _, _, _, hid, _, _⟩ :=
    CreateInstance_ID_is_fetched_name sample.lib
      (sample.provider (sample.okScript (sample.fetched
        (util.GenerateInstanceName "web" "abc123" 63) []))) "web" "abc123"
      sample.generator sample.spec 0
      ⟨util.GenerateInstanceName "web" "abc123" 63,
        util.GenerateInstanceName "web" "abc123" 63, []⟩ rfl
  exact ⟨rfl, insertReq, op, st1, st2, inst, hins, hwait, hget, hid⟩

end gcp

end CloudApiAdaptor
